import Mathlib

/-!
Verification of the per-request user-state resolution pipeline of the
support-bot repository: the profile store (src/app/bot/utils/redis/redis.py,
class RedisStorage, a MongoDB-backed collection of user documents) and the
request-state middleware (src/app/bot/middlewares/redis.py, class
RedisMiddleware).  The store is embedded as a list of UserData documents
looked up by their own id field, matching the MongoDB id filter and the
whole-document $set; the middleware as a pure function from the inbound
event, the store contents and a fault model for the two store calls to an
Except value, where an error models a Python exception propagating out of
the async call (so the context-injection and handler lines never run).
-/

/-- Modelled from the spec: the UserData record of
src/app/bot/utils/redis/models.py is not present in the source tree.  Its
fields follow section 3 of the spec (the data model) and the keyword
arguments of the UserData constructor call in the middleware; language_code
is optional and, per section 4.2 step 1 of the spec, absent when not
supplied to the constructor. -/
structure UserData where
  id : Int
  full_name : String
  username : String
  language_code : Option String
  is_banned : Bool
  message_thread_id : Option Int
  message_silent_id : Option Int
  message_silent_mode : Bool
  deriving Repr, DecidableEq

/-- Acting user extracted from the event (aiogram User as used by the
middleware): id, display name, optional username. -/
structure User where
  id : Int
  full_name : String
  username : Option String
  deriving Repr, DecidableEq

/-- Chat extracted from the event (aiogram Chat as used by the middleware):
only the type tag is consulted. -/
structure Chat where
  type : String
  deriving Repr, DecidableEq

/-- Username formatting expression of the middleware, line 60 and line 64 of
src/app/bot/middlewares/redis.py.  The Python conditional tests
user.username for truthiness, so an absent username and an empty-string
username both fall to the sentinel. -/
def format_username (username : Option String) : String :=
  match username with
  | some u => if u = "" then "-" else "@" ++ u
  | none => "-"

namespace RedisStorage

/-- The users collection: a list of UserData documents, each looked up by
its own id field.  The storage-assigned internal identifier (the Mongo
underscore-id) is stripped by get_user before a document is handed back, so
it is not part of the model. -/
def Store := List UserData

/-- RedisStorage.get_user: find_one on the users collection with the filter
on the id field, returning the first document whose id field equals the
looked-up id, parsed as UserData, or none. -/
def get_user (store : List UserData) (id_ : Int) : Option UserData :=
  match store with
  | [] => none
  | p :: rest => if p.id = id_ then some p else get_user rest id_

/-- RedisStorage.update_user, backed by RedisStorage._set: update_one on the
id filter with a dollar-set of every field of the supplied document and
upsert enabled.  The dollar-set includes the supplied document's own id
field, so the first document matching the filter is replaced whole and
thereafter keyed by the supplied document's id; on the insert path the
dollar-set values override the filter seed, so the inserted document is
exactly the supplied one. -/
def update_user (store : List UserData) (id_ : Int) (d : UserData) :
    List UserData :=
  match store with
  | [] => [d]
  | p :: rest => if p.id = id_ then d :: rest else p :: update_user rest id_ d

end RedisStorage

/-- The UserData constructor call of the middleware (lines 53 to 61 of
src/app/bot/middlewares/redis.py): the profile created on first contact.
language_code is not passed there and so is absent (see the UserData model
note). -/
def newUserData (user : User) : UserData :=
  { message_thread_id := none
    message_silent_id := none
    message_silent_mode := false
    is_banned := false
    id := user.id
    full_name := user.full_name
    username := format_username user.username
    language_code := none }

/-- Lines 52 to 64 of the middleware: take the stored profile if present,
otherwise construct a fresh one; when a stored profile was found, overwrite
its full_name and username with the freshly formatted event values. -/
def resolveBase (user_redis : Option UserData) (user : User) : UserData :=
  match user_redis with
  | none => newUserData user
  | some d =>
    { d with full_name := user.full_name, username := format_username user.username }

/-- Lines 66 to 68 of the middleware: when exactly one language is supported,
set language_code to that single supported language.  The supported-language
configuration (SUPPORTED_LANGUAGES in src/app/bot/utils/texts.py, not
present in the source tree) is passed in as the list of its keys, per
section 6 of the spec. -/
def applyLanguagePin (supported : List String) (d : UserData) : UserData :=
  if supported.length = 1 then { d with language_code := supported.head? } else d

/-- The full profile resolution performed by the middleware for a
private-chat event: base resolution followed by the single-language pin. -/
def resolveUser (user_redis : Option UserData) (user : User)
    (supported : List String) : UserData :=
  applyLanguagePin supported (resolveBase user_redis user)

/-- Possible storage-level failure of a store call (connectivity, timeout),
raised in Python as an exception from the awaited motor operation. -/
inductive StoreError where
  | unavailable
  deriving Repr, DecidableEq

/-- Observable outcome of a successful middleware invocation: the final
store contents, how many store reads and writes happened, the value bound
to the user_data context key, and whether the downstream handler ran. -/
structure MiddlewareResult where
  store : List UserData
  reads : Nat
  writes : Nat
  user_data : Option UserData
  handlerCalled : Bool
  deriving Repr, DecidableEq

/-- RedisMiddleware.call embeds RedisMiddleware.call of
src/app/bot/middlewares/redis.py.  The two Boolean flags form the fault
model: getFails makes the get_user call raise, updateFails makes the
update_user call raise.  An Except.error result models the exception
propagating out of the middleware, in which case the context-injection
lines and the handler call are never reached. -/
def RedisMiddleware.call (event_chat : Chat) (event_from_user : Option User)
    (supported : List String) (store : List UserData)
    (getFails updateFails : Bool) : Except StoreError MiddlewareResult :=
  match event_from_user with
  | some user =>
    if event_chat.type = "private" then
      if getFails then Except.error StoreError.unavailable
      else
        let user_redis := RedisStorage.get_user store user.id
        let user_data := resolveUser user_redis user supported
        if updateFails then Except.error StoreError.unavailable
        else
          Except.ok
            { store := RedisStorage.update_user store user.id user_data
              reads := 1
              writes := 1
              user_data := some user_data
              handlerCalled := true }
    else
      Except.ok
        { store := store, reads := 0, writes := 0, user_data := none
          handlerCalled := true }
  | none =>
    Except.ok
      { store := store, reads := 0, writes := 0, user_data := none
        handlerCalled := true }

/-! Helper lemmas. -/

theorem pin_id (s : List String) (d : UserData) :
    (applyLanguagePin s d).id = d.id := by
  unfold applyLanguagePin; split <;> rfl

theorem pin_full_name (s : List String) (d : UserData) :
    (applyLanguagePin s d).full_name = d.full_name := by
  unfold applyLanguagePin; split <;> rfl

theorem pin_username (s : List String) (d : UserData) :
    (applyLanguagePin s d).username = d.username := by
  unfold applyLanguagePin; split <;> rfl

theorem pin_is_banned (s : List String) (d : UserData) :
    (applyLanguagePin s d).is_banned = d.is_banned := by
  unfold applyLanguagePin; split <;> rfl

theorem pin_message_thread_id (s : List String) (d : UserData) :
    (applyLanguagePin s d).message_thread_id = d.message_thread_id := by
  unfold applyLanguagePin; split <;> rfl

theorem pin_message_silent_id (s : List String) (d : UserData) :
    (applyLanguagePin s d).message_silent_id = d.message_silent_id := by
  unfold applyLanguagePin; split <;> rfl

theorem pin_message_silent_mode (s : List String) (d : UserData) :
    (applyLanguagePin s d).message_silent_mode = d.message_silent_mode := by
  unfold applyLanguagePin; split <;> rfl

theorem resolve_username (ur : Option UserData) (user : User) (s : List String) :
    (resolveUser ur user s).username = format_username user.username := by
  cases ur <;> simp [resolveUser, resolveBase, newUserData, pin_username]

theorem resolve_full_name (ur : Option UserData) (user : User) (s : List String) :
    (resolveUser ur user s).full_name = user.full_name := by
  cases ur <;> simp [resolveUser, resolveBase, newUserData, pin_full_name]

theorem resolve_stable (user : User) (supported : List String) :
    resolveUser (some (resolveUser none user supported)) user supported =
      resolveUser none user supported := by
  by_cases h : supported.length = 1 <;>
    simp [resolveUser, resolveBase, newUserData, applyLanguagePin, h]

theorem call_private (chat : Chat) (user : User) (supported : List String)
    (store : List UserData) (h : chat.type = "private") :
    RedisMiddleware.call chat (some user) supported store false false =
      Except.ok
        { store := RedisStorage.update_user store user.id
            (resolveUser (RedisStorage.get_user store user.id) user supported)
          reads := 1
          writes := 1
          user_data := some
            (resolveUser (RedisStorage.get_user store user.id) user supported)
          handlerCalled := true } := by
  simp [RedisMiddleware.call, h]

theorem get_user_update_user (store : List UserData) (id_ : Int)
    (d : UserData) (hid : d.id = id_) :
    RedisStorage.get_user (RedisStorage.update_user store id_ d) id_ = some d := by
  induction store with
  | nil => simp [RedisStorage.update_user, RedisStorage.get_user, hid]
  | cons p rest ih =>
    by_cases h : p.id = id_ <;>
      simp [RedisStorage.update_user, RedisStorage.get_user, h, ih, hid]

theorem resolve_none_id (user : User) (s : List String) :
    (resolveUser none user s).id = user.id := by
  simp [resolveUser, resolveBase, newUserData, pin_id]

/-! Claim theorems. -/

/-- C1: for every private-chat event whose user already has a stored
profile, the profile handed to the store upsert and injected into the
context has full_name and username overwritten with the freshly formatted
event values, while is_banned, message_thread_id, message_silent_id and
message_silent_mode all equal the stored profile's values. -/
theorem c1_refresh_preserves_frame (chat : Chat) (user : User)
    (supported : List String) (store : List UserData) (e : UserData)
    (hpriv : chat.type = "private")
    (hex : RedisStorage.get_user store user.id = some e) :
    ∃ p, RedisMiddleware.call chat (some user) supported store false false =
        Except.ok
          { store := RedisStorage.update_user store user.id p
            reads := 1, writes := 1, user_data := some p, handlerCalled := true } ∧
      p.full_name = user.full_name ∧
      p.username = format_username user.username ∧
      p.is_banned = e.is_banned ∧
      p.message_thread_id = e.message_thread_id ∧
      p.message_silent_id = e.message_silent_id ∧
      p.message_silent_mode = e.message_silent_mode := by
  refine ⟨resolveUser (some e) user supported, ?_, ?_, ?_, ?_, ?_, ?_, ?_⟩
  · rw [call_private chat user supported store hpriv, hex]
  · exact resolve_full_name (some e) user supported
  · exact resolve_username (some e) user supported
  · simp [resolveUser, resolveBase, pin_is_banned]
  · simp [resolveUser, resolveBase, pin_message_thread_id]
  · simp [resolveUser, resolveBase, pin_message_silent_id]
  · simp [resolveUser, resolveBase, pin_message_silent_mode]

/-- Witness for C1 at a concrete input: stored profile for user 1 has
is_banned true and message_thread_id 42; a fresh event from Alice refreshes
the display fields and preserves the rest. -/
theorem c1_witness :
    ∃ p, RedisMiddleware.call { type := "private" }
        (some { id := 1, full_name := "Alice", username := some ("alice") }) []
        [{ id := 1, full_name := "Bob", username := "-", language_code := none,
           is_banned := true, message_thread_id := some 42,
           message_silent_id := none, message_silent_mode := false }]
        false false =
        Except.ok
          { store := RedisStorage.update_user
              [{ id := 1, full_name := "Bob", username := "-",
                 language_code := none, is_banned := true,
                 message_thread_id := some 42, message_silent_id := none,
                 message_silent_mode := false }] 1 p
            reads := 1, writes := 1, user_data := some p, handlerCalled := true } ∧
      p.full_name = "Alice" ∧
      p.username = format_username (some ("alice")) ∧
      p.is_banned = true ∧
      p.message_thread_id = some 42 ∧
      p.message_silent_id = none ∧
      p.message_silent_mode = false :=
  c1_refresh_preserves_frame { type := "private" }
    { id := 1, full_name := "Alice", username := some ("alice") } []
    [{ id := 1, full_name := "Bob", username := "-", language_code := none,
       is_banned := true, message_thread_id := some 42,
       message_silent_id := none, message_silent_mode := false }]
    { id := 1, full_name := "Bob", username := "-", language_code := none,
      is_banned := true, message_thread_id := some 42,
      message_silent_id := none, message_silent_mode := false }
    rfl (by simp [RedisStorage.get_user])

/-- C2: when exactly one language is supported, every private-chat event
resolves to a profile whose language_code equals that single supported
language, whether the profile is new or existing and regardless of any
previously stored language_code. -/
theorem c2_single_language_pin (chat : Chat) (user : User) (l : String)
    (store : List UserData) (hpriv : chat.type = "private") :
    ∃ p, RedisMiddleware.call chat (some user) [l] store false false =
        Except.ok
          { store := RedisStorage.update_user store user.id p
            reads := 1, writes := 1, user_data := some p, handlerCalled := true } ∧
      p.language_code = some l := by
  refine ⟨resolveUser (RedisStorage.get_user store user.id) user [l], ?_, ?_⟩
  · exact call_private chat user [l] store hpriv
  · simp [resolveUser, applyLanguagePin]

/-- Witness for C2 at a concrete input: user 5 has a stored profile whose
language_code is de, yet resolution against the single supported language
en pins language_code to en. -/
theorem c2_witness :
    ∃ p, RedisMiddleware.call { type := "private" }
        (some { id := 5, full_name := "Carol", username := none }) ["en"]
        [{ id := 5, full_name := "Carol", username := "-",
           language_code := some ("de"), is_banned := false,
           message_thread_id := none, message_silent_id := none,
           message_silent_mode := false }]
        false false =
        Except.ok
          { store := RedisStorage.update_user
              [{ id := 5, full_name := "Carol", username := "-",
                 language_code := some ("de"), is_banned := false,
                 message_thread_id := none, message_silent_id := none,
                 message_silent_mode := false }] 5 p
            reads := 1, writes := 1, user_data := some p, handlerCalled := true } ∧
      p.language_code = some ("en") :=
  c2_single_language_pin { type := "private" }
    { id := 5, full_name := "Carol", username := none } "en"
    [{ id := 5, full_name := "Carol", username := "-",
       language_code := some ("de"), is_banned := false,
       message_thread_id := none, message_silent_id := none,
       message_silent_mode := false }]
    rfl

/-- C3: for every inbound event whose chat type is not private or whose
acting user is absent, the middleware performs no store read or write,
injects an absent profile (user_data none) into the context, and invokes
the next handler; the store is untouched even under a faulty store. -/
theorem c3_nonprivate_bypass (chat : Chat) (user_opt : Option User)
    (supported : List String) (store : List UserData) (gf uf : Bool)
    (h : chat.type ≠ "private" ∨ user_opt = none) :
    RedisMiddleware.call chat user_opt supported store gf uf =
      Except.ok
        { store := store, reads := 0, writes := 0, user_data := none
          handlerCalled := true } := by
  cases user_opt with
  | none => simp [RedisMiddleware.call]
  | some u =>
    rcases h with hne | habs
    · simp [RedisMiddleware.call, hne]
    · exact absurd habs (by simp)

/-- Witness for C3 at a concrete input: a group-chat event with a user
present bypasses the store and injects an absent profile. -/
theorem c3_witness :
    RedisMiddleware.call { type := "group" }
        (some { id := 9, full_name := "Dan", username := some ("dan") }) ["en"]
        [] true true =
      Except.ok
        { store := [], reads := 0, writes := 0, user_data := none
          handlerCalled := true } :=
  c3_nonprivate_bypass { type := "group" }
    (some { id := 9, full_name := "Dan", username := some ("dan") }) ["en"]
    [] true true (Or.inl (by simp))

/-- C4: for every private-chat event from a user with no stored profile,
the constructed profile carries the event's id and full name, the formatted
username, is_banned false, absent message_thread_id and message_silent_id,
message_silent_mode false, and no language_code before the single-language
default step; the middleware then upserts and injects that profile after
the language step. -/
theorem c4_new_profile_defaults (chat : Chat) (user : User)
    (supported : List String) (store : List UserData)
    (hpriv : chat.type = "private")
    (hnone : RedisStorage.get_user store user.id = none) :
    resolveBase none user =
      { id := user.id, full_name := user.full_name
        username := format_username user.username, language_code := none
        is_banned := false, message_thread_id := none
        message_silent_id := none, message_silent_mode := false } ∧
    RedisMiddleware.call chat (some user) supported store false false =
      Except.ok
        { store := RedisStorage.update_user store user.id
            (applyLanguagePin supported (resolveBase none user))
          reads := 1
          writes := 1
          user_data := some (applyLanguagePin supported (resolveBase none user))
          handlerCalled := true } := by
  refine ⟨rfl, ?_⟩
  rw [call_private chat user supported store hpriv, hnone]
  rfl

/-- Witness for C4 at a concrete input: first contact from Erin against an
empty store. -/
theorem c4_witness :
    resolveBase none { id := 3, full_name := "Erin", username := some ("erin") } =
      { id := 3, full_name := "Erin"
        username := format_username (some ("erin")), language_code := none
        is_banned := false, message_thread_id := none
        message_silent_id := none, message_silent_mode := false } ∧
    RedisMiddleware.call { type := "private" }
        (some { id := 3, full_name := "Erin", username := some ("erin") })
        ["en", "de"] [] false false =
      Except.ok
        { store := RedisStorage.update_user [] 3
            (applyLanguagePin ["en", "de"]
              (resolveBase none
                { id := 3, full_name := "Erin", username := some ("erin") }))
          reads := 1
          writes := 1
          user_data := some (applyLanguagePin ["en", "de"]
            (resolveBase none
              { id := 3, full_name := "Erin", username := some ("erin") }))
          handlerCalled := true } :=
  c4_new_profile_defaults { type := "private" }
    { id := 3, full_name := "Erin", username := some ("erin") }
    ["en", "de"] [] rfl rfl

/-- Counterexample to C5 as stated: the acting user's username some empty
string is present, yet the resolved profile's username is the sentinel,
not the at-sign followed by that username. -/
theorem c5_counterexample :
    RedisMiddleware.call { type := "private" }
        (some { id := 7, full_name := "Eve", username := some ("") }) [] []
        false false =
      Except.ok
        { store := [{ id := 7, full_name := "Eve", username := "-"
                      language_code := none, is_banned := false
                      message_thread_id := none, message_silent_id := none
                      message_silent_mode := false }]
          reads := 1, writes := 1
          user_data := some
            { id := 7, full_name := "Eve", username := "-"
              language_code := none, is_banned := false
              message_thread_id := none, message_silent_id := none
              message_silent_mode := false }
          handlerCalled := true } ∧
    ("-" : String) ≠ "@" ++ "" := by
  exact ⟨rfl, by decide⟩

/-- C5 amended: for every private-chat event, a present and non-empty
username yields the at-sign followed by that username, while an absent or
empty-string username yields the sentinel. -/
theorem c5_username_formatting (chat : Chat) (user : User)
    (supported : List String) (store : List UserData)
    (hpriv : chat.type = "private") :
    ∃ p, RedisMiddleware.call chat (some user) supported store false false =
        Except.ok
          { store := RedisStorage.update_user store user.id p
            reads := 1, writes := 1, user_data := some p, handlerCalled := true } ∧
      (∀ u, user.username = some u → u ≠ "" → p.username = "@" ++ u) ∧
      (user.username = none → p.username = "-") ∧
      (user.username = some ("") → p.username = "-") := by
  refine ⟨resolveUser (RedisStorage.get_user store user.id) user supported,
    call_private chat user supported store hpriv, ?_, ?_, ?_⟩
  · intro u hu hne
    rw [resolve_username, hu]
    simp [format_username, hne]
  · intro hu
    rw [resolve_username, hu]
    rfl
  · intro hu
    rw [resolve_username, hu]
    rfl

/-- Witness for the amended C5 at a concrete input: username alice formats
to at-alice. -/
theorem c5_witness :
    ∃ p, RedisMiddleware.call { type := "private" }
        (some { id := 2, full_name := "Alice", username := some ("alice") }) []
        [] false false =
        Except.ok
          { store := RedisStorage.update_user [] 2 p
            reads := 1, writes := 1, user_data := some p, handlerCalled := true } ∧
      (∀ u, (some ("alice") : Option String) = some u → u ≠ "" →
        p.username = "@" ++ u) ∧
      ((some ("alice") : Option String) = none → p.username = "-") ∧
      ((some ("alice") : Option String) = some ("") → p.username = "-") :=
  c5_username_formatting { type := "private" }
    { id := 2, full_name := "Alice", username := some ("alice") } [] [] rfl

/-- C6: idempotent creation: resolving an identity against the empty store
and then resolving the same identity again against the resulting store
leaves the store unchanged after the second upsert, and the final stored
profile has is_banned false, message_thread_id absent, and the full name
and formatted username of the event. -/
theorem c6_idempotent_creation (chat : Chat) (user : User)
    (supported : List String) (hpriv : chat.type = "private") :
    ∃ p, RedisMiddleware.call chat (some user) supported [] false false =
        Except.ok
          { store := [p]
            reads := 1, writes := 1, user_data := some p, handlerCalled := true } ∧
      RedisMiddleware.call chat (some user) supported [p] false false =
        Except.ok
          { store := [p]
            reads := 1, writes := 1, user_data := some p, handlerCalled := true } ∧
      p.is_banned = false ∧
      p.message_thread_id = none ∧
      p.full_name = user.full_name ∧
      p.username = format_username user.username := by
  refine ⟨resolveUser none user supported, ?_, ?_, ?_, ?_, ?_, ?_⟩
  · rw [call_private chat user supported [] hpriv]
    rfl
  · rw [call_private chat user supported
      [resolveUser none user supported] hpriv]
    simp [RedisStorage.get_user, RedisStorage.update_user, resolve_none_id,
      resolve_stable]
  · simp [resolveUser, resolveBase, newUserData, pin_is_banned]
  · simp [resolveUser, resolveBase, newUserData, pin_message_thread_id]
  · exact resolve_full_name none user supported
  · exact resolve_username none user supported

/-- Witness for C6 at a concrete input: Frank first contacts twice with a
single supported language en. -/
theorem c6_witness :
    ∃ p, RedisMiddleware.call { type := "private" }
        (some { id := 4, full_name := "Frank", username := some ("frank") })
        ["en"] [] false false =
        Except.ok
          { store := [p]
            reads := 1, writes := 1, user_data := some p, handlerCalled := true } ∧
      RedisMiddleware.call { type := "private" }
        (some { id := 4, full_name := "Frank", username := some ("frank") })
        ["en"] [p] false false =
        Except.ok
          { store := [p]
            reads := 1, writes := 1, user_data := some p, handlerCalled := true } ∧
      p.is_banned = false ∧
      p.message_thread_id = none ∧
      p.full_name = "Frank" ∧
      p.username = format_username (some ("frank")) :=
  c6_idempotent_creation { type := "private" }
    { id := 4, full_name := "Frank", username := some ("frank") } ["en"] rfl

/-- Counterexample to C7 as stated: an event claiming private-chat type with
no acting user does not surface an error; the middleware returns
successfully, injecting an absent profile and invoking the handler. -/
theorem c7_counterexample :
    RedisMiddleware.call { type := "private" } none ["en"] [] false false =
      Except.ok
        { store := [], reads := 0, writes := 0, user_data := none
          handlerCalled := true } := rfl

/-- C7 amended: for every event with private-chat type but no acting user,
the middleware recovers exactly as for non-private chats: no store access,
an absent profile injected, and the next handler invoked; no error is
raised even under a faulty store. -/
theorem c7_no_user_recovered (supported : List String)
    (store : List UserData) (gf uf : Bool) :
    RedisMiddleware.call { type := "private" } none supported store gf uf =
      Except.ok
        { store := store, reads := 0, writes := 0, user_data := none
          handlerCalled := true } := by
  simp [RedisMiddleware.call]

/-- C8: for every private-chat event with an acting user, a failure of the
store read or of the store write propagates out of the middleware: the
result is an error, so no profile is injected into the context and the
next handler is not invoked. -/
theorem c8_store_failure_propagates (chat : Chat) (user : User)
    (supported : List String) (store : List UserData) (gf uf : Bool)
    (hpriv : chat.type = "private") (hfail : gf = true ∨ uf = true) :
    RedisMiddleware.call chat (some user) supported store gf uf =
      Except.error StoreError.unavailable := by
  cases gf with
  | true => simp [RedisMiddleware.call, hpriv]
  | false =>
    rcases hfail with h | h
    · simp at h
    · subst h
      simp [RedisMiddleware.call, hpriv]

/-- Witness for C8 at a concrete input: a failing store write aborts the
event with an error. -/
theorem c8_witness :
    RedisMiddleware.call { type := "private" }
        (some { id := 6, full_name := "Grace", username := none }) ["en"]
        [] false true =
      Except.error StoreError.unavailable :=
  c8_store_failure_propagates { type := "private" }
    { id := 6, full_name := "Grace", username := none } ["en"] [] false true
    rfl (Or.inr rfl)

/-- Counterexample to C9 as stated: upserting under lookup id 1 a profile
whose own id field is 2 leaves nothing retrievable at id 1, because the
dollar-set writes the document's own id field and that field is the future
lookup key; the document lands under id 2 instead.  So after the upsert the
stored record for the given id does not equal the supplied profile. -/
theorem c9_counterexample :
    RedisStorage.get_user
        (RedisStorage.update_user [] 1
          { id := 2, full_name := "Ivan", username := "-", language_code := none
            is_banned := false, message_thread_id := none
            message_silent_id := none, message_silent_mode := false }) 1 =
      none ∧
    RedisStorage.get_user
        (RedisStorage.update_user [] 1
          { id := 2, full_name := "Ivan", username := "-", language_code := none
            is_banned := false, message_thread_id := none
            message_silent_id := none, message_silent_mode := false }) 2 =
      some
        { id := 2, full_name := "Ivan", username := "-", language_code := none
          is_banned := false, message_thread_id := none
          message_silent_id := none, message_silent_mode := false } :=
  ⟨rfl, rfl⟩

/-- C9 amended: for every id and every supplied profile whose id field
equals that id, after the upsert the stored record for that id equals the
supplied profile in every field: the upsert creates the record if absent
and otherwise replaces the stored document whole, never a mixture of old
and new fields. -/
theorem c9_upsert_replaces (store : List UserData) (id_ : Int) (d : UserData)
    (hid : d.id = id_) :
    RedisStorage.get_user (RedisStorage.update_user store id_ d) id_ = some d :=
  get_user_update_user store id_ d hid

/-- Witness for the amended C9 at a concrete input: user 1's stored
document is replaced whole by the supplied profile. -/
theorem c9_witness :
    RedisStorage.get_user
        (RedisStorage.update_user
          [{ id := 1, full_name := "Old", username := "-", language_code := none
             is_banned := true, message_thread_id := some 7
             message_silent_id := none, message_silent_mode := false }] 1
          { id := 1, full_name := "New", username := "@new"
            language_code := none, is_banned := false
            message_thread_id := none, message_silent_id := none
            message_silent_mode := true }) 1 =
      some
        { id := 1, full_name := "New", username := "@new"
          language_code := none, is_banned := false
          message_thread_id := none, message_silent_id := none
          message_silent_mode := true } :=
  c9_upsert_replaces
    [{ id := 1, full_name := "Old", username := "-", language_code := none
       is_banned := true, message_thread_id := some 7
       message_silent_id := none, message_silent_mode := false }] 1
    { id := 1, full_name := "New", username := "@new"
      language_code := none, is_banned := false
      message_thread_id := none, message_silent_id := none
      message_silent_mode := true } rfl

/-- C10: for every private-chat event whose acting user's username is the
empty string, the resolved profile's username is the sentinel: the
middleware tests the username for truthiness, so an empty-string username
is treated exactly like an absent one. -/
theorem c10_empty_username_sentinel (chat : Chat) (user : User)
    (supported : List String) (store : List UserData)
    (hpriv : chat.type = "private") (hempty : user.username = some ("")) :
    ∃ p, RedisMiddleware.call chat (some user) supported store false false =
        Except.ok
          { store := RedisStorage.update_user store user.id p
            reads := 1, writes := 1, user_data := some p, handlerCalled := true } ∧
      p.username = "-" := by
  refine ⟨resolveUser (RedisStorage.get_user store user.id) user supported,
    call_private chat user supported store hpriv, ?_⟩
  rw [resolve_username, hempty]
  rfl

/-- Witness for C10 at a concrete input: Heidi arrives with an empty-string
username and is stored with the sentinel. -/
theorem c10_witness :
    ∃ p, RedisMiddleware.call { type := "private" }
        (some { id := 8, full_name := "Heidi", username := some ("") }) []
        [] false false =
        Except.ok
          { store := RedisStorage.update_user [] 8 p
            reads := 1, writes := 1, user_data := some p, handlerCalled := true } ∧
      p.username = "-" :=
  c10_empty_username_sentinel { type := "private" }
    { id := 8, full_name := "Heidi", username := some ("") } [] [] rfl rfl
